import Mathlib

/-!
Shallow embedding of `google/cloud/vision/client.py` (the Vision `Client`
facade) and proofs of its specified properties.

Object identity (Python reference equality) is modelled by an allocation
counter (`World`): every object construction draws a fresh `objId`, so two
objects are "the same instance" exactly when their ids coincide.
-/

namespace VisionClient

/-- Python truthiness of a string value: every non-empty string is truthy. -/
def pyStrTruthy (s : String) : Bool := s ≠ ""

/-- Truthiness of `os.getenv(DISABLE_GRPC, False)` under environment state
`env` (the current value of the `GOOGLE_CLOUD_DISABLE_GRPC` variable, `none`
when unset): the default `False` is falsy when the variable is unset,
otherwise Python truthiness of the string value. -/
def disableGrpcTruthy (env : Option String) : Bool :=
  match env with
  | none => false
  | some s => pyStrTruthy s

/-- Whether the disable-gRPC variable is present in the environment at all,
with any string value. -/
def disableGrpcPresent (env : Option String) : Bool := env.isSome

/-- `_USE_GAX = not os.getenv(DISABLE_GRPC, False)` (client.py, line 28),
evaluated once when the module is imported. -/
def useGaxAtImport (env : Option String) : Bool := ! disableGrpcTruthy env

/-- Process-level state: the live value of the disable-gRPC environment
variable, and the module constant `_USE_GAX`, frozen at import time. -/
structure ProcessState where
  envDisableGrpc : Option String
  moduleUseGax : Bool
deriving DecidableEq, Repr

/-- Importing `google.cloud.vision.client` computes `_USE_GAX` from the
environment value current at that moment. -/
def importClientModule (env : Option String) : ProcessState :=
  { envDisableGrpc := env, moduleUseGax := useGaxAtImport env }

/-- Mutating the disable-gRPC environment variable after import: the live
environment changes, the already-computed module constant does not. -/
def ProcessState.setEnvDisableGrpc (s : ProcessState) (v : Option String) :
    ProcessState :=
  { s with envDisableGrpc := v }

/-- Opaque credential object (`google.auth.credentials.Credentials`). -/
structure Credentials where
  token : Nat
deriving DecidableEq, Repr

/-- The single error class surfaced by construction. -/
inductive VisionError where
  | authenticationResolutionError
deriving DecidableEq, Repr

/-- A transport adapter instance: `_GAPICVisionAPI(self)` when `isGapic`,
else `_HTTPVisionAPI(self)`; `boundClient` is the `objId` of the owning
client passed as `self`. -/
structure VisionAPI where
  objId : Nat
  isGapic : Bool
  boundClient : Nat
deriving DecidableEq, Repr

/-- Allocation state: the next fresh object identity. -/
structure World where
  nextId : Nat
deriving DecidableEq, Repr

/-- Draw a fresh object identity. -/
def World.alloc (w : World) : Nat × World := (w.nextId, ⟨w.nextId + 1⟩)

/-- The `Client` facade: resolved project and credentials, the transport
flag `self._use_gax`, and the memoization field `self._vision_api_internal`
(class attribute `None`, i.e. unset, on a freshly constructed client). -/
structure Client where
  objId : Nat
  project : String
  credentials : Credentials
  use_gax : Bool
  vision_api_internal : Option VisionAPI
deriving DecidableEq, Repr

/-- Ambient configuration available to the identity-resolution
collaborator: a default project and default credentials, either possibly
unresolvable. -/
structure Ambient where
  project : Option String
  credentials : Option Credentials
deriving DecidableEq, Repr

/-- Modelled from the spec: the project half of the external
identity-resolution collaborator (`ClientWithProject.__init__` in
`google.cloud.client`, not part of this source tree). An explicit project
wins; otherwise the ambient default is used; if neither exists,
construction fails with the single construction-time error class. -/
def resolveProject (explicit ambient : Option String) :
    Except VisionError String :=
  match explicit with
  | some p => .ok p
  | none =>
    match ambient with
    | some p => .ok p
    | none => .error .authenticationResolutionError

/-- Modelled from the spec: the credentials half of the external
identity-resolution collaborator (`ClientWithProject.__init__` in
`google.cloud.client`, not part of this source tree). Explicit credentials
win; otherwise ambient credentials are used; if neither can be resolved,
construction fails with the authentication-resolution error. -/
def resolveCredentials (explicit ambient : Option Credentials) :
    Except VisionError Credentials :=
  match explicit with
  | some c => .ok c
  | none =>
    match ambient with
    | some c => .ok c
    | none => .error .authenticationResolutionError

/-- `Client.__init__` (client.py, lines 64-71): resolve project and
credentials through the superclass, then set `self._use_gax` from the
explicit `use_gax` argument if given, else from the module constant
`_USE_GAX`. No adapter is constructed here; `_vision_api_internal` starts
unset. -/
def Client.construct (s : ProcessState) (amb : Ambient)
    (project : Option String) (credentials : Option Credentials)
    (use_gax : Option Bool) (w : World) :
    Except VisionError (Client × World) := do
  let proj ← resolveProject project amb.project
  let cred ← resolveCredentials credentials amb.credentials
  let (cid, w') := w.alloc
  let flag :=
    match use_gax with
    | none => s.moduleUseGax
    | some b => b
  .ok ({ objId := cid, project := proj, credentials := cred,
         use_gax := flag, vision_api_internal := none }, w')

/-- The `_vision_api` property (client.py, lines 99-113): if
`self._vision_api_internal is None`, construct `_GAPICVisionAPI(self)`
when `self._use_gax` else `_HTTPVisionAPI(self)` and store it; return
`self._vision_api_internal`. Returns the adapter together with the
updated client and allocation state. -/
def Client.vision_api (c : Client) (w : World) :
    VisionAPI × Client × World :=
  match c.vision_api_internal with
  | some api => (api, c, w)
  | none =>
    let (aid, w') := w.alloc
    let api : VisionAPI :=
      { objId := aid, isGapic := c.use_gax, boundClient := c.objId }
    (api, { c with vision_api_internal := some api }, w')

/-- `Client.batch` (client.py, lines 73-79): `return Batch(self)`. -/
structure Batch where
  objId : Nat
  client : Nat
deriving DecidableEq, Repr

def Client.batch (c : Client) (w : World) : Batch × Client × World :=
  let (bid, w') := w.alloc
  ({ objId := bid, client := c.objId }, c, w')

/-- An `Image` request builder as the facade hands it to the `Image`
constructor: the owning client and the three optional inputs, passed
through verbatim. -/
structure Image where
  objId : Nat
  client : Nat
  content : Option (List Nat)
  filename : Option String
  source_uri : Option String
deriving DecidableEq, Repr

/-- `Client.image` (client.py, lines 81-97):
`return Image(client=self, content=content, filename=filename,
source_uri=source_uri)` — all three optional arguments forwarded
unchanged, with no mutual-exclusivity validation. -/
def Client.image (c : Client) (content : Option (List Nat))
    (filename source_uri : Option String) (w : World) :
    Image × Client × World :=
  let (iid, w') := w.alloc
  ({ objId := iid, client := c.objId, content := content,
     filename := filename, source_uri := source_uri }, c, w')

/-- `n` successive reads of the `_vision_api` property on the same client,
collecting the returned adapter instances. -/
def visionApiCalls : Nat → Client → World → List VisionAPI × Client × World
  | 0, c, w => ([], c, w)
  | n + 1, c, w =>
    let (api, c', w') := c.vision_api w
    let (rest, c'', w'') := visionApiCalls n c' w'
    (api :: rest, c'', w'')

/-- The operations a caller can perform on a constructed client, plus an
external mutation of the transport flag (Python attributes are writable;
the spec's memoization invariant must hold even across such a change). -/
inductive ClientOp where
  | batchOp : ClientOp
  | imageOp : Option (List Nat) → Option String → Option String → ClientOp
  | visionApiOp : ClientOp
  | setUseGax : Bool → ClientOp
deriving DecidableEq, Repr

/-- Effect of one operation on the client and allocation state. -/
def ClientOp.step (op : ClientOp) (c : Client) (w : World) : Client × World :=
  match op with
  | .batchOp =>
    let (_, c', w') := c.batch w
    (c', w')
  | .imageOp ct f s =>
    let (_, c', w') := c.image ct f s w
    (c', w')
  | .visionApiOp =>
    let (_, c', w') := c.vision_api w
    (c', w')
  | .setUseGax b => ({ c with use_gax := b }, w)

/-- Run a sequence of operations. -/
def runOps : List ClientOp → Client → World → Client × World
  | [], c, w => (c, w)
  | op :: rest, c, w =>
    let (c', w') := op.step c w
    runOps rest c' w'

/-- Extract the adapter a freshly constructed client resolves to, when
construction succeeds. -/
def adapterOfConstruct (r : Except VisionError (Client × World)) :
    Option VisionAPI :=
  match r with
  | .ok (c, w) => some (c.vision_api w).1
  | .error _ => none

/-! ## Helper lemmas -/

/-- A successful construction sets `use_gax` from the explicit argument
(falling back to the module constant), leaves the adapter cache unset, and
allocates exactly the fresh client id. -/
lemma construct_ok_fields (s : ProcessState) (amb : Ambient)
    (proj : Option String) (cred : Option Credentials) (ug : Option Bool)
    (w : World) (c : Client) (w' : World)
    (h : Client.construct s amb proj cred ug w = .ok (c, w')) :
    c.use_gax = ug.getD s.moduleUseGax ∧ c.vision_api_internal = none ∧
      c.objId = w.nextId ∧ w' = ⟨w.nextId + 1⟩ := by
  cases hp : resolveProject proj amb.project with
  | error e => simp [Client.construct, hp, bind, Except.bind] at h
  | ok p =>
    cases hc : resolveCredentials cred amb.credentials with
    | error e => simp [Client.construct, hp, hc, bind, Except.bind] at h
    | ok cr =>
      simp only [Client.construct, hp, hc, World.alloc, bind, Except.bind,
        Except.ok.injEq, Prod.mk.injEq] at h
      obtain ⟨h1, h2⟩ := h
      subst h1
      subst h2
      cases ug <;> simp [Option.getD]

/-- Reading `_vision_api` on a client whose cache is unset constructs the
adapter chosen by `use_gax`, stores it, and draws one fresh id. -/
lemma vision_api_unresolved (c : Client) (w : World)
    (h : c.vision_api_internal = none) :
    c.vision_api w =
      (VisionAPI.mk w.nextId c.use_gax c.objId,
       Client.mk c.objId c.project c.credentials c.use_gax (some (VisionAPI.mk w.nextId c.use_gax c.objId)),
       ⟨w.nextId + 1⟩) := by
  simp [Client.vision_api, h, World.alloc]

/-- Reading `_vision_api` on a client whose cache is set returns the cached
adapter and changes nothing. -/
lemma vision_api_resolved (c : Client) (w : World) (api : VisionAPI)
    (h : c.vision_api_internal = some api) :
    c.vision_api w = (api, c, w) := by
  simp [Client.vision_api, h]

/-! ## Claim theorems -/

/-- Claim C1: a client constructed with the explicit transport override
`use_gax = True` has `_vision_api` return a `_GAPICVisionAPI` (RPC)
adapter, whatever the disable-gRPC environment variable held at module
import. -/
theorem use_gax_true_yields_gapic_adapter
    (env : Option String) (amb : Ambient) (proj : Option String)
    (cred : Option Credentials) (w : World) (c : Client) (w' : World)
    (h : Client.construct (importClientModule env) amb proj cred
        (some true) w = .ok (c, w'))
    (w2 : World) :
    ((c.vision_api w2).1).isGapic = true := by
  obtain ⟨hg, hn, -, -⟩ := construct_ok_fields _ _ _ _ _ _ _ _ h
  rw [vision_api_unresolved c w2 hn]
  simpa using hg

/-- Witness for C1 at a concrete construction with the toggle set. -/
theorem use_gax_true_yields_gapic_adapter_witness :
    (((Client.mk 0 "p" ⟨0⟩ true none).vision_api ⟨1⟩).1).isGapic = true :=
  use_gax_true_yields_gapic_adapter (some "1") ⟨none, none⟩ (some "p")
    (some ⟨0⟩) ⟨0⟩ (Client.mk 0 "p" ⟨0⟩ true none) ⟨1⟩ rfl ⟨1⟩

/-- Claim C2: a client constructed with the explicit transport override
`use_gax = False` has `_vision_api` return a `_HTTPVisionAPI` (HTTP)
adapter, whatever the disable-gRPC environment variable held at module
import. -/
theorem use_gax_false_yields_http_adapter
    (env : Option String) (amb : Ambient) (proj : Option String)
    (cred : Option Credentials) (w : World) (c : Client) (w' : World)
    (h : Client.construct (importClientModule env) amb proj cred
        (some false) w = .ok (c, w'))
    (w2 : World) :
    ((c.vision_api w2).1).isGapic = false := by
  obtain ⟨hg, hn, -, -⟩ := construct_ok_fields _ _ _ _ _ _ _ _ h
  rw [vision_api_unresolved c w2 hn]
  simpa using hg

/-- Witness for C2 at a concrete construction with the toggle unset. -/
theorem use_gax_false_yields_http_adapter_witness :
    (((Client.mk 0 "p" ⟨0⟩ false none).vision_api ⟨1⟩).1).isGapic = false :=
  use_gax_false_yields_http_adapter none ⟨none, none⟩ (some "p")
    (some ⟨0⟩) ⟨0⟩ (Client.mk 0 "p" ⟨0⟩ false none) ⟨1⟩ rfl ⟨1⟩

/-- Claim C3 as stated is false: the disable-gRPC variable present with the
string value `""` is falsy in Python, so `_USE_GAX = not os.getenv(...)` is
`True` and a client constructed with `use_gax` unset resolves to the RPC
(`_GAPICVisionAPI`) adapter, not the HTTP one the claim requires for any
present string value. -/
theorem env_present_empty_string_yields_gapic :
    disableGrpcPresent (some "") = true ∧
    (adapterOfConstruct (Client.construct (importClientModule (some ""))
        (Ambient.mk (some "proj") (some ⟨0⟩)) none none none
        ⟨0⟩)).map VisionAPI.isGapic = some true := by
  exact ⟨rfl, rfl⟩

/-- Claim C3 (amended): for a client constructed with `use_gax` unset, the
adapter is decided by Python truthiness of the variable's value at module
import: RPC (`isGapic = true`) when the variable is unset or set to a falsy
(empty) string, HTTP when it is set to a non-empty string. -/
theorem env_toggle_decides_transport
    (env : Option String) (amb : Ambient) (proj : Option String)
    (cred : Option Credentials) (w : World) (c : Client) (w' : World)
    (h : Client.construct (importClientModule env) amb proj cred none w
        = .ok (c, w'))
    (w2 : World) :
    ((c.vision_api w2).1).isGapic = ! disableGrpcTruthy env := by
  obtain ⟨hg, hn, -, -⟩ := construct_ok_fields _ _ _ _ _ _ _ _ h
  rw [vision_api_unresolved c w2 hn]
  simpa [importClientModule, useGaxAtImport] using hg

/-- Witness for amended C3: unset variable gives the RPC adapter. -/
theorem env_toggle_decides_transport_witness :
    (((Client.mk 0 "p" ⟨0⟩ true none).vision_api ⟨1⟩).1).isGapic
      = ! disableGrpcTruthy none :=
  env_toggle_decides_transport none ⟨none, none⟩ (some "p") (some ⟨0⟩)
    ⟨0⟩ (Client.mk 0 "p" ⟨0⟩ true none) ⟨1⟩ rfl ⟨1⟩

/-- Repeated `_vision_api` reads on a client whose cache is already set
return the cached adapter every time and change nothing. -/
lemma visionApiCalls_cached (n : Nat) (c : Client) (w : World)
    (api : VisionAPI) (h : c.vision_api_internal = some api) :
    visionApiCalls n c w = (List.replicate n api, c, w) := by
  induction n with
  | zero => simp [visionApiCalls]
  | succ m ih =>
    simp [visionApiCalls, vision_api_resolved c w api h, ih,
      List.replicate_succ]

/-- Claim C4: on a freshly constructed client (adapter cache unset),
reading `_vision_api` `n ≥ 1` times returns the identical adapter instance
every time, leaves that instance cached, and allocates exactly one object
over all `n` reads. -/
theorem vision_api_idempotent (n : Nat) (c : Client) (w : World)
    (hn : 1 ≤ n) (h : c.vision_api_internal = none) :
    ∃ api, (visionApiCalls n c w).1 = List.replicate n api ∧
      (visionApiCalls n c w).2.1.vision_api_internal = some api ∧
      (visionApiCalls n c w).2.2.nextId = w.nextId + 1 := by
  obtain ⟨m, rfl⟩ : ∃ m, n = m + 1 := ⟨n - 1, by omega⟩
  refine ⟨VisionAPI.mk w.nextId c.use_gax c.objId, ?_⟩
  have hstep := vision_api_unresolved c w h
  simp only [visionApiCalls, hstep]
  rw [visionApiCalls_cached m _ _ (VisionAPI.mk w.nextId c.use_gax c.objId) rfl]
  simp [List.replicate_succ]

/-- Witness for C4: three reads on a concrete fresh client. -/
theorem vision_api_idempotent_witness :
    ∃ api, (visionApiCalls 3 (Client.mk 0 "p" ⟨0⟩ true none) ⟨1⟩).1
        = List.replicate 3 api ∧
      (visionApiCalls 3 (Client.mk 0 "p" ⟨0⟩ true none)
          ⟨1⟩).2.1.vision_api_internal = some api ∧
      (visionApiCalls 3 (Client.mk 0 "p" ⟨0⟩ true none) ⟨1⟩).2.2.nextId
        = (1 : Nat) + 1 :=
  vision_api_idempotent 3 (Client.mk 0 "p" ⟨0⟩ true none) ⟨1⟩
    (by decide) rfl

/-- No single operation — batch, image, adapter access, or even an
external write to the transport flag — ever replaces or clears a set
adapter cache. -/
lemma step_preserves_cached (op : ClientOp) (c : Client) (w : World)
    (api : VisionAPI) (h : c.vision_api_internal = some api) :
    (op.step c w).1.vision_api_internal = some api := by
  cases op with
  | batchOp => simpa [ClientOp.step, Client.batch, World.alloc] using h
  | imageOp ct f su =>
    simpa [ClientOp.step, Client.image, World.alloc] using h
  | visionApiOp => simp [ClientOp.step, vision_api_resolved c w api h, h]
  | setUseGax b => simpa [ClientOp.step] using h

/-- Claim C5: once the adapter cache is set, no sequence of subsequent
operations (batch, image, adapter access, or mutating the transport flag)
ever replaces or clears it, and the adapter accessor still returns the
memoized instance afterwards: adapter-resolved is a terminal state. -/
theorem cached_adapter_is_permanent (ops : List ClientOp) (c : Client)
    (w : World) (api : VisionAPI) (h : c.vision_api_internal = some api) :
    (runOps ops c w).1.vision_api_internal = some api ∧
      ((runOps ops c w).1.vision_api (runOps ops c w).2).1 = api := by
  have main : ∀ (ops : List ClientOp) (c : Client) (w : World),
      c.vision_api_internal = some api →
      (runOps ops c w).1.vision_api_internal = some api := by
    intro ops
    induction ops with
    | nil => intro c w hc; simpa [runOps] using hc
    | cons op rest ih =>
      intro c w hc
      simp only [runOps]
      exact ih _ _ (step_preserves_cached op c w api hc)
  refine ⟨main ops c w h, ?_⟩
  rw [vision_api_resolved _ _ api (main ops c w h)]

/-- Witness for C5: a concrete resolved client survives a concrete
sequence containing every operation kind, including a flag flip. -/
theorem cached_adapter_is_permanent_witness :
    (runOps [ClientOp.batchOp, ClientOp.setUseGax false,
        ClientOp.visionApiOp, ClientOp.imageOp none none none,
        ClientOp.visionApiOp]
      (Client.mk 0 "p" ⟨0⟩ true (some (VisionAPI.mk 5 true 0)))
      ⟨6⟩).1.vision_api_internal = some (VisionAPI.mk 5 true 0) ∧
    ((runOps [ClientOp.batchOp, ClientOp.setUseGax false,
        ClientOp.visionApiOp, ClientOp.imageOp none none none,
        ClientOp.visionApiOp]
      (Client.mk 0 "p" ⟨0⟩ true (some (VisionAPI.mk 5 true 0)))
      ⟨6⟩).1.vision_api
        (runOps [ClientOp.batchOp, ClientOp.setUseGax false,
          ClientOp.visionApiOp, ClientOp.imageOp none none none,
          ClientOp.visionApiOp]
        (Client.mk 0 "p" ⟨0⟩ true (some (VisionAPI.mk 5 true 0)))
        ⟨6⟩).2).1 = VisionAPI.mk 5 true 0 :=
  cached_adapter_is_permanent
    [ClientOp.batchOp, ClientOp.setUseGax false, ClientOp.visionApiOp,
      ClientOp.imageOp none none none, ClientOp.visionApiOp]
    (Client.mk 0 "p" ⟨0⟩ true (some (VisionAPI.mk 5 true 0))) ⟨6⟩
    (VisionAPI.mk 5 true 0) rfl

/-- Claim C6: provided the project resolves (explicitly or ambiently),
construction fails with the authentication-resolution error exactly when
neither explicit nor ambient credentials exist; and every successful
construction yields a client whose adapter cache is still unset
(adapter-unresolved state, no adapter built during construction). -/
theorem construction_error_iff_no_credentials
    (s : ProcessState) (amb : Ambient) (proj : Option String)
    (cred : Option Credentials) (ug : Option Bool) (w : World)
    (hp : proj ≠ none ∨ amb.project ≠ none) :
    (Client.construct s amb proj cred ug w
        = .error .authenticationResolutionError
      ↔ (cred = none ∧ amb.credentials = none)) ∧
    (∀ c w', Client.construct s amb proj cred ug w = .ok (c, w') →
      c.vision_api_internal = none) := by
  constructor
  · have hpok : ∃ p, resolveProject proj amb.project = .ok p := by
      cases proj with
      | some p => exact ⟨p, rfl⟩
      | none =>
        cases hap : amb.project with
        | some p => exact ⟨p, by simp [resolveProject, hap]⟩
        | none => simp [hap] at hp
    obtain ⟨p, hpok⟩ := hpok
    cases cred with
    | some cr =>
      simp [Client.construct, hpok, resolveCredentials, bind, Except.bind]
    | none =>
      cases hac : amb.credentials with
      | some cr =>
        simp [Client.construct, hpok, resolveCredentials, hac, bind,
          Except.bind]
      | none =>
        simp [Client.construct, hpok, resolveCredentials, hac, bind,
          Except.bind]
  · intro c w' h
    exact (construct_ok_fields _ _ _ _ _ _ _ _ h).2.1

/-- Witness for C6: with an ambient project, no credentials anywhere fails
with the authentication error, and a concrete successful construction
leaves the cache unset. -/
theorem construction_error_iff_no_credentials_witness :
    (Client.construct (importClientModule none)
        (Ambient.mk (some "proj") none) none none none ⟨0⟩
        = .error .authenticationResolutionError
      ↔ ((none : Option Credentials) = none ∧
         (Ambient.mk (some "proj") (none : Option Credentials)).credentials
           = none)) ∧
    (∀ c w', Client.construct (importClientModule none)
        (Ambient.mk (some "proj") none) none none none ⟨0⟩
        = .ok (c, w') →
      c.vision_api_internal = none) :=
  construction_error_iff_no_credentials (importClientModule none)
    (Ambient.mk (some "proj") none) none none none ⟨0⟩
    (Or.inr (by simp))

/-- Claim C7: two successive `batch()` calls on the same client return two
distinct `Batch` objects, each bound to that client, and neither call
mutates the client. -/
theorem batch_twice_distinct_same_client (c : Client) (w : World) :
    ((c.batch w).1 ≠ ((c.batch w).2.1.batch (c.batch w).2.2).1) ∧
    (c.batch w).1.client = c.objId ∧
    ((c.batch w).2.1.batch (c.batch w).2.2).1.client = c.objId ∧
    (c.batch w).2.1 = c ∧
    ((c.batch w).2.1.batch (c.batch w).2.2).2.1 = c := by
  refine ⟨?_, rfl, rfl, rfl, rfl⟩
  intro hcontra
  have := congrArg Batch.objId hcontra
  simp [Client.batch, World.alloc] at this

/-- Claim C8: `image(...)` returns an `Image` bound to the calling client
that carries the three optional inputs exactly as passed — whichever of
content, filename and source URI were supplied, including any combination,
with no mutual-exclusivity validation — and does not mutate the client. -/
theorem image_forwards_inputs (c : Client) (content : Option (List Nat))
    (filename source_uri : Option String) (w : World) :
    (c.image content filename source_uri w).1.client = c.objId ∧
    (c.image content filename source_uri w).1.content = content ∧
    (c.image content filename source_uri w).1.filename = filename ∧
    (c.image content filename source_uri w).1.source_uri = source_uri ∧
    (c.image content filename source_uri w).2.1 = c :=
  ⟨rfl, rfl, rfl, rfl, rfl⟩

/-- Claim C9: the disable-gRPC environment variable is read once, at
module import, into `_USE_GAX`; mutating the variable afterwards changes
nothing about any later construction with `use_gax` unset, whose transport
flag always equals the value frozen at import. -/
theorem env_read_once_at_import
    (envImport envNew : Option String) (amb : Ambient)
    (proj : Option String) (cred : Option Credentials) (w : World) :
    (Client.construct
        ((importClientModule envImport).setEnvDisableGrpc envNew)
        amb proj cred none w
      = Client.construct (importClientModule envImport)
          amb proj cred none w) ∧
    (∀ c w', Client.construct
        ((importClientModule envImport).setEnvDisableGrpc envNew)
        amb proj cred none w = .ok (c, w') →
      c.use_gax = useGaxAtImport envImport) := by
  refine ⟨rfl, ?_⟩
  intro c w' h
  have := (construct_ok_fields _ _ _ _ _ _ _ _ h).1
  simpa [ProcessState.setEnvDisableGrpc, importClientModule,
    Option.getD] using this

/-- Witness for C9: importing with the variable unset, then setting it,
does not change a construction's outcome or its transport flag. -/
theorem env_read_once_at_import_witness :
    (Client.construct
        ((importClientModule none).setEnvDisableGrpc (some "1"))
        (Ambient.mk none none) (some "p") (some ⟨0⟩) none ⟨0⟩
      = Client.construct (importClientModule none)
          (Ambient.mk none none) (some "p") (some ⟨0⟩) none ⟨0⟩) ∧
    (∀ c w', Client.construct
        ((importClientModule none).setEnvDisableGrpc (some "1"))
        (Ambient.mk none none) (some "p") (some ⟨0⟩) none ⟨0⟩
        = .ok (c, w') →
      c.use_gax = useGaxAtImport none) :=
  env_read_once_at_import none (some "1") (Ambient.mk none none)
    (some "p") (some ⟨0⟩) ⟨0⟩

/-- Claim C10: frame condition — `batch` and `image` leave the client
entirely unchanged; the adapter accessor never changes project,
credentials, transport flag or identity, and once the cache is set it
leaves the client entirely unchanged too, so the only field ever written
is the adapter cache, on the first accessor call. -/
theorem facade_frame_condition (c : Client) (w : World)
    (content : Option (List Nat)) (filename source_uri : Option String) :
    (ClientOp.batchOp.step c w).1 = c ∧
    ((ClientOp.imageOp content filename source_uri).step c w).1 = c ∧
    (ClientOp.visionApiOp.step c w).1.project = c.project ∧
    (ClientOp.visionApiOp.step c w).1.credentials = c.credentials ∧
    (ClientOp.visionApiOp.step c w).1.use_gax = c.use_gax ∧
    (ClientOp.visionApiOp.step c w).1.objId = c.objId ∧
    (∀ api, c.vision_api_internal = some api →
      ClientOp.visionApiOp.step c w = (c, w)) := by
  refine ⟨rfl, rfl, ?_, ?_, ?_, ?_, ?_⟩
  · cases h : c.vision_api_internal with
    | none => simp [ClientOp.step, vision_api_unresolved c w h]
    | some api => simp [ClientOp.step, vision_api_resolved c w api h]
  · cases h : c.vision_api_internal with
    | none => simp [ClientOp.step, vision_api_unresolved c w h]
    | some api => simp [ClientOp.step, vision_api_resolved c w api h]
  · cases h : c.vision_api_internal with
    | none => simp [ClientOp.step, vision_api_unresolved c w h]
    | some api => simp [ClientOp.step, vision_api_resolved c w api h]
  · cases h : c.vision_api_internal with
    | none => simp [ClientOp.step, vision_api_unresolved c w h]
    | some api => simp [ClientOp.step, vision_api_resolved c w api h]
  · intro api h
    simp [ClientOp.step, vision_api_resolved c w api h]

/-- Witness for C10 at a concrete resolved client. -/
theorem facade_frame_condition_witness :
    (ClientOp.batchOp.step
        (Client.mk 0 "p" ⟨0⟩ true (some (VisionAPI.mk 5 true 0))) ⟨6⟩).1
      = Client.mk 0 "p" ⟨0⟩ true (some (VisionAPI.mk 5 true 0)) ∧
    ((ClientOp.imageOp none (some "x.png") none).step
        (Client.mk 0 "p" ⟨0⟩ true (some (VisionAPI.mk 5 true 0))) ⟨6⟩).1
      = Client.mk 0 "p" ⟨0⟩ true (some (VisionAPI.mk 5 true 0)) ∧
    (ClientOp.visionApiOp.step
        (Client.mk 0 "p" ⟨0⟩ true (some (VisionAPI.mk 5 true 0)))
        ⟨6⟩).1.project
      = (Client.mk 0 "p" ⟨0⟩ true (some (VisionAPI.mk 5 true 0))).project ∧
    (ClientOp.visionApiOp.step
        (Client.mk 0 "p" ⟨0⟩ true (some (VisionAPI.mk 5 true 0)))
        ⟨6⟩).1.credentials
      = (Client.mk 0 "p" ⟨0⟩ true
          (some (VisionAPI.mk 5 true 0))).credentials ∧
    (ClientOp.visionApiOp.step
        (Client.mk 0 "p" ⟨0⟩ true (some (VisionAPI.mk 5 true 0)))
        ⟨6⟩).1.use_gax
      = (Client.mk 0 "p" ⟨0⟩ true (some (VisionAPI.mk 5 true 0))).use_gax ∧
    (ClientOp.visionApiOp.step
        (Client.mk 0 "p" ⟨0⟩ true (some (VisionAPI.mk 5 true 0)))
        ⟨6⟩).1.objId
      = (Client.mk 0 "p" ⟨0⟩ true (some (VisionAPI.mk 5 true 0))).objId ∧
    (∀ api, (Client.mk 0 "p" ⟨0⟩ true
          (some (VisionAPI.mk 5 true 0))).vision_api_internal = some api →
      ClientOp.visionApiOp.step
          (Client.mk 0 "p" ⟨0⟩ true (some (VisionAPI.mk 5 true 0))) ⟨6⟩
        = (Client.mk 0 "p" ⟨0⟩ true (some (VisionAPI.mk 5 true 0)), ⟨6⟩)) :=
  facade_frame_condition
    (Client.mk 0 "p" ⟨0⟩ true (some (VisionAPI.mk 5 true 0))) ⟨6⟩
    none (some "x.png") none

end VisionClient
